import Mathlib

/-!
Verification of the Khanda server message router (khandaServer.py,
khanda_structs.py) against its natural-language specification.

The Python source is shallowly embedded: the `khanda_message` /
`khanda_TxWrapper` records, the JSON encode/decode layer used by
`JSONEncoder.default` / `KhandaMSGDecoder`, and the bodies of the worker
functions (`RxWorker`, `SerialRxWorker`, `CMDWorker`, `TxWorker`,
`stopWorkers`, `QueueCommand`).  Python runtime failures (AttributeError,
NameError, ValueError) are modelled with an explicit error type, since
several worker bodies reference attributes or local names that are never
bound.
-/

namespace Khanda

/-- Python runtime errors that the embedded worker bodies can raise. -/
inductive PyErr where
  | attributeError
  | nameError
  | valueError
  deriving DecidableEq, Repr

/-- khanda_structs.py lines 17-32: `khanda_message.__init__` stores exactly
the four attributes `type`, `payload`, `recipient`, `timestamp`, all
strings. -/
structure khanda_message where
  type : String
  payload : String
  recipient : String
  timestamp : String
  deriving DecidableEq, Repr

/-- Python attribute lookup on a `khanda_message` instance: only the four
attributes assigned in `__init__` exist; any other name raises
AttributeError (modelled as `none`).  In particular `"data"` is NOT an
attribute of `khanda_message` (it is an attribute of `khanda_TxWrapper`
only), which is what `CMDWorker`'s DEVICE branch (khandaServer.py line
367) tries to read. -/
def pyGetAttr (m : khanda_message) (attr : String) : Option String :=
  if attr = "type" then some m.type
  else if attr = "payload" then some m.payload
  else if attr = "recipient" then some m.recipient
  else if attr = "timestamp" then some m.timestamp
  else none

/-- khanda_structs.py lines 46-57: wrapper pairing a serialized message
(`data`) with a destination address (`recipient`). -/
structure khanda_TxWrapper where
  recipient : String
  data : String
  deriving DecidableEq, Repr

/-!
## JSON layer

`json.dumps(obj, cls=JSONEncoder)` on a `khanda_message` first calls
`__json__` (khanda_structs.py lines 33-43), producing the flat dict
`{"type": t, "payload": p, "recipient": r, "timestamp": ts}` whose values
are all strings, and then serializes that dict.  `json.loads(s,
object_hook=KhandaMSGDecoder)` parses the text and hands the resulting
dict to `KhandaMSGDecoder` (lines 77-87).  We model the `json` module on
the fragment actually exchanged: a single flat object whose values are
strings.  Objects are association lists of (key, value) string pairs, in
serialization order.
-/

/-- Escape of one character inside a JSON string literal, as produced by
Python's `json.dumps` with its default `ensure_ascii=True`: `"` and `\`
get a backslash escape, printable ASCII is emitted verbatim, and
everything else becomes a short escape (`\n`, `\r`, `\t`, `\b`, `\f`) or a
`\uXXXX` sequence. -/
def escChar (c : Char) : List Char :=
  if c = '"' then ['\\', '"']
  else if c = '\\' then ['\\', '\\']
  else if 0x20 ≤ c.toNat ∧ c.toNat ≤ 0x7e then [c]
  else if c = '\n' then ['\\', 'n']
  else if c = '\r' then ['\\', 'r']
  else if c = '\t' then ['\\', 't']
  else if c = Char.ofNat 8 then ['\\', 'b']
  else if c = Char.ofNat 12 then ['\\', 'f']
  else
    let hex : Nat → Char := fun n =>
      if n < 10 then Char.ofNat (48 + n) else Char.ofNat (87 + n)
    ['\\', 'u', hex (c.toNat / 4096 % 16), hex (c.toNat / 256 % 16),
     hex (c.toNat / 16 % 16), hex (c.toNat % 16)]

/-- Escaped body of a JSON string literal. -/
def escList (cs : List Char) : List Char := cs.flatMap escChar

/-- A complete JSON string literal for `s`. -/
def jsonQuote (s : String) : List Char := '"' :: (escList s.data ++ ['"'])

/-- One `"key": "value"` item, with `json.dumps`'s default `": "`
separator. -/
def dumpPair (kv : String × String) : List Char :=
  jsonQuote kv.1 ++ ':' :: ' ' :: jsonQuote kv.2

/-- Comma-separated items, with `json.dumps`'s default `", "` separator. -/
def dumpPairsBody : List (String × String) → List Char
  | [] => []
  | [kv] => dumpPair kv
  | kv :: rest => dumpPair kv ++ ',' :: ' ' :: dumpPairsBody rest

/-- The output of `json.dumps` on a flat string-valued object. -/
def jsonDumpsFlat (pairs : List (String × String)) : String :=
  String.mk ('{' :: (dumpPairsBody pairs ++ ['}']))

/-- Value of a hexadecimal digit. -/
def hexVal (c : Char) : Option Nat :=
  if '0' ≤ c ∧ c ≤ '9' then some (c.toNat - 48)
  else if 'a' ≤ c ∧ c ≤ 'f' then some (c.toNat - 87)
  else if 'A' ≤ c ∧ c ≤ 'F' then some (c.toNat - 55)
  else none

/-- The single-character JSON escapes accepted after a backslash. -/
def unescapeShort (c : Char) : Option Char :=
  if c = '"' then some '"'
  else if c = '\\' then some '\\'
  else if c = '/' then some '/'
  else if c = 'b' then some (Char.ofNat 8)
  else if c = 'f' then some (Char.ofNat 12)
  else if c = 'n' then some '\n'
  else if c = 'r' then some '\r'
  else if c = 't' then some '\t'
  else none

/-- Parser for the body of a JSON string literal (the opening `"` already
consumed).  Returns the decoded characters and the input remaining after
the closing `"`. -/
def parseJStringBody : List Char → Option (List Char × List Char)
  | [] => none
  | c :: rest =>
    if c = '"' then some ([], rest)
    else if c = '\\' then
      match rest with
      | [] => none
      | e :: rest2 =>
        if e = 'u' then
          match rest2 with
          | h1 :: h2 :: h3 :: h4 :: rest3 =>
            match hexVal h1, hexVal h2, hexVal h3, hexVal h4 with
            | some a, some b, some k, some d =>
              (parseJStringBody rest3).map
                (fun p => (Char.ofNat (4096 * a + 256 * b + 16 * k + d) :: p.1, p.2))
            | _, _, _, _ => none
          | _ => none
        else
          match unescapeShort e with
          | some u => (parseJStringBody rest2).map (fun p => (u :: p.1, p.2))
          | none => none
    else (parseJStringBody rest).map (fun p => (c :: p.1, p.2))

/-- Skip JSON whitespace. -/
def skipWs : List Char → List Char
  | [] => []
  | c :: rest =>
    if c = ' ' ∨ c = '\t' ∨ c = '\n' ∨ c = '\r' then skipWs rest else c :: rest

/-- Parse a nonempty comma-separated list of `"key": "value"` pairs
followed by the closing `}`.  The fuel bounds the number of pairs; callers
pass the input length, which always suffices. -/
def parsePairsAux : Nat → List Char → Option (List (String × String) × List Char)
  | 0, _ => none
  | fuel + 1, l =>
    match l with
    | [] => none
    | c :: r0 =>
      if c = '"' then
        match parseJStringBody r0 with
        | none => none
        | some (k, r1) =>
          match skipWs r1 with
          | [] => none
          | c1 :: r2 =>
            if c1 = ':' then
              match skipWs r2 with
              | [] => none
              | c2 :: r3 =>
                if c2 = '"' then
                  match parseJStringBody r3 with
                  | none => none
                  | some (v, r4) =>
                    match skipWs r4 with
                    | [] => none
                    | c3 :: r5 =>
                      if c3 = '}' then some ([(String.mk k, String.mk v)], r5)
                      else if c3 = ',' then
                        match parsePairsAux fuel (skipWs r5) with
                        | some (ps, rem) => some ((String.mk k, String.mk v) :: ps, rem)
                        | none => none
                      else none
                else none
            else none
      else none

/-- Model of `json.loads` on the flat string-valued object fragment. -/
def jsonLoadsFlat (s : String) : Option (List (String × String)) :=
  match skipWs s.data with
  | [] => none
  | c0 :: rest =>
    if c0 = '{' then
      match skipWs rest with
      | [] => none
      | c :: r1 =>
        if c = '}' then if skipWs r1 = [] then some [] else none
        else
          match parsePairsAux (r1.length + 2) (c :: r1) with
          | some (ps, rem) => if skipWs rem = [] then some ps else none
          | none => none
    else none

/-- Python dict lookup `obj[key]` on the decoded object; `none` models
KeyError. -/
def dictGet (obj : List (String × String)) (key : String) : Option String :=
  match obj with
  | [] => none
  | (k, v) :: rest => if k = key then some v else dictGet rest key

/-- khanda_structs.py lines 33-43: `khanda_message.__json__`. -/
def msgToJson (m : khanda_message) : List (String × String) :=
  [("type", m.type), ("payload", m.payload),
   ("recipient", m.recipient), ("timestamp", m.timestamp)]

/-- khanda_structs.py lines 77-87: `KhandaMSGDecoder`, the `object_hook`
that turns the decoded dict back into a `khanda_message`.  A missing key
raises KeyError, propagated as `none`. -/
def KhandaMSGDecoder (obj : List (String × String)) : Option khanda_message := do
  let t ← dictGet obj "type"
  let p ← dictGet obj "payload"
  let r ← dictGet obj "recipient"
  let ts ← dictGet obj "timestamp"
  pure ⟨t, p, r, ts⟩

/-- Encoding `json.dumps(m, cls=JSONEncoder)`: serialize via `__json__`. -/
def encodeKhanda (m : khanda_message) : String :=
  jsonDumpsFlat (msgToJson m)

/-- Decoding `json.loads(s, object_hook=KhandaMSGDecoder)`. -/
def decodeKhanda (s : String) : Option khanda_message :=
  (jsonLoadsFlat s).bind KhandaMSGDecoder

/-!
## Server state

`khandaServer.__init__` (khandaServer.py lines 51-78).  Queues are FIFO
lists; `serialPorts` records the open flag of each opened serial handle;
`logfile` is the sequence of records appended to `logfile.txt`;
`stderrLog` the sequence of `sys.stderr.write` messages.  `threads` counts
the `threading.Thread` objects appended by `startWorkers`.  `logfileAttr`
records whether the attribute `self.logfile` has ever been assigned — no
method of the class ever assigns it, so it is `false` on every reachable
state. -/
structure KhandaState where
  MSGLEN : Nat
  RxQueue : List khanda_message
  TxQueue : List khanda_TxWrapper
  threads : Nat
  serialPorts : List Bool
  host : String
  port : Nat
  sockOpen : Bool
  Attached_Devices : List (String × String)
  logfile : List String
  stderrLog : List String
  logfileAttr : Bool
  deriving DecidableEq, Repr

/-- Constructor `khandaServer.__init__(MCAST_GRP, MCAST_PORT)`: port defaults to 5007,
host to "224.1.1.1"; all queues/collections empty; the UDP socket object
is created. -/
def khandaInit (MCAST_GRP : Option String) (MCAST_PORT : Option Nat) : KhandaState :=
  { MSGLEN := 512
    RxQueue := []
    TxQueue := []
    threads := 0
    serialPorts := []
    host := MCAST_GRP.getD "224.1.1.1"
    port := MCAST_PORT.getD 5007
    sockOpen := true
    Attached_Devices := []
    logfile := []
    stderrLog := []
    logfileAttr := false }

/-!
## Ingress (RxWorker / SerialRxWorker)
-/

/-- khandaServer.py lines 290-294 (and 257-261): the four
`raw.replace(c, '')` calls that delete every tab, CR, LF and NUL.  (The
preceding `re.sub(r"\s+$","",raw)` on lines 257/290 discards its result —
it is not assigned — and so has no effect.) -/
def stripCtl (s : String) : String :=
  String.mk (s.data.filter
    (fun c => ¬(c = '\t' ∨ c = '\r' ∨ c = '\n' ∨ c = Char.ofNat 0)))

/-- khandaServer.py line 262: the serial path additionally replaces every
single quote by a double quote before decoding. -/
def serialNormalize (s : String) : String :=
  String.mk ((stripCtl s).data.map (fun c => if c = '\'' then '"' else c))

/-- khandaServer.py lines 296-303, body of `RxWorker` for one received
datagram: strip control characters, decode; on success enqueue on
`RxQueue` iff the recipient equals the literal `"224.1.1.1"` (note: the
literal, not `self.host`); on decode failure write to stderr. -/
def rxWorkerProcessFrame (st : KhandaState) (raw : String) : KhandaState :=
  match decodeKhanda (stripCtl raw) with
  | some pkt =>
    if pkt.recipient = "224.1.1.1" then { st with RxQueue := st.RxQueue ++ [pkt] }
    else st
  | none => { st with stderrLog := st.stderrLog ++ ["Invalid Packet Structure"] }

/-- khandaServer.py lines 256-272, body of `SerialRxWorker` for one frame
read from one port: strip, normalize quotes, decode, filter on the literal
`"224.1.1.1"`. -/
def serialProcessFrame (st : KhandaState) (raw : String) : KhandaState :=
  match decodeKhanda (serialNormalize raw) with
  | some pkt =>
    if pkt.recipient = "224.1.1.1" then { st with RxQueue := st.RxQueue ++ [pkt] }
    else st
  | none => { st with stderrLog := st.stderrLog ++ ["Invalid Packet Structure"] }

/-- What one port presents to `SerialRxWorker` on one pass of its `for`
loop: fewer than 128 buffered bytes (skip), a transport-level read failure
(`port.readline()` raises), or a read line. -/
inductive SerialRead where
  | noData
  | failure
  | frame (raw : String)

/-- khandaServer.py lines 252-274: one pass of `SerialRxWorker`'s `for
port in self.serialPorts` loop, given what each port presents.  The outer
`try` around the read has `except: return` (lines 273-274), so a read
failure makes the whole worker function return at once: no log, no
degraded marking, and the remaining ports of the pass are not read.  The
returned flag is true when the worker function returned (terminated). -/
def serialRxPass (st : KhandaState) : List SerialRead → KhandaState × Bool
  | [] => (st, false)
  | r :: rest =>
    match r with
    | .noData => serialRxPass st rest
    | .failure => (st, true)
    | .frame raw => serialRxPass (serialProcessFrame st raw) rest

/-!
## Dispatch (CMDWorker)
-/

/-- The `type,payload,timestamp\r\n` record that `CMDWorker` appends to
`logfile.txt` (khandaServer.py lines 345 and 360). -/
def logRecord (m : khanda_message) : String :=
  m.type ++ "," ++ m.payload ++ "," ++ m.timestamp ++ "\r\n"

/-- khandaServer.py lines 338-376: the body of the default `CMDWorker`
loop for one `RxPacket`.  `respLocal` is the Python local
`khanda_resp_wrapper`, which persists across loop iterations; referencing
it on line 358 before any assignment raises NameError.  The DEVICE branch
(line 367) reads `RxPacket.data`, which is not an attribute of
`khanda_message`, so it raises AttributeError; the continuation after that
read (registry append, ACKDEV reply) is kept for fidelity but is
unreachable. -/
def dispatchStep (now : String) (st : KhandaState)
    (respLocal : Option khanda_TxWrapper) (RxPacket : khanda_message) :
    Except PyErr (KhandaState × Option khanda_TxWrapper) :=
  let st1 :=
    if RxPacket.type = "EVENT" then
      { st with logfile := st.logfile ++ [logRecord RxPacket] }
    else st
  let ledResult : Except PyErr (KhandaState × Option khanda_TxWrapper) :=
    if RxPacket.type = "LED" then
      let respLocal2 :=
        if RxPacket.payload = "RED" ∨ RxPacket.payload = "REDOFF" then
          some ⟨"10.0.0.120", encodeKhanda ⟨"CMD", "LED+RED", "224.1.1.1", now⟩⟩
        else if RxPacket.payload = "GREEN" ∨ RxPacket.payload = "GREENOFF" then
          some ⟨"10.0.0.120", encodeKhanda ⟨"CMD", "LED+GREEN", "224.1.1.1", now⟩⟩
        else if RxPacket.payload = "BLUE" ∨ RxPacket.payload = "BLUEOFF" then
          some ⟨"10.0.0.120", encodeKhanda ⟨"CMD", "LED+BLUE", "224.1.1.1", now⟩⟩
        else respLocal
      match respLocal2 with
      | none => .error .nameError
      | some w =>
        .ok ({ st1 with TxQueue := st1.TxQueue ++ [w],
                        logfile := st1.logfile ++ [logRecord RxPacket] }, respLocal2)
    else .ok (st1, respLocal)
  match ledResult with
  | .error e => .error e
  | .ok (st2, resp2) =>
    let st3 :=
      if RxPacket.type = "HEALTH" ∧ RxPacket.payload = "UNHEALTHY" then
        { st2 with stderrLog := st2.stderrLog ++ ["DEVICE ERROR RESTART"] }
      else st2
    if RxPacket.type = "DEVICE" then
      match pyGetAttr RxPacket "data" with
      | none => .error .attributeError
      | some sdata =>
        match sdata.splitOn "+" with
        | [ty, ip] =>
          let st4 := { st3 with Attached_Devices := st3.Attached_Devices ++ [(ty, ip)] }
          let w : khanda_TxWrapper :=
            ⟨ip, encodeKhanda ⟨"ACKDEV", "SUCCESS", ip, now⟩⟩
          .ok ({ st4 with TxQueue := st4.TxQueue ++ [w] }, some w)
        | _ => .error .valueError
    else .ok (st3, resp2)

/-- The default `CMDWorker` loop run over a finite prefix of the inbound
queue.  An uncaught error (the default branch has no try/except)
propagates out of the worker function, killing the thread: the remaining
messages are never processed. -/
def cmdWorkerRun (now : String) :
    KhandaState → Option khanda_TxWrapper → List khanda_message →
    KhandaState × Option PyErr
  | st, _, [] => (st, none)
  | st, respLocal, m :: rest =>
    match dispatchStep now st respLocal m with
    | .ok (st2, resp2) => cmdWorkerRun now st2 resp2 rest
    | .error e => (st, some e)

/-- khandaServer.py lines 379-391: the injected-parser variant of
`CMDWorker`.  The `try` is OUTSIDE the `while` loop, so the first failure
of the injected `CMDParser` is caught once, `"Invalid Command Parser!"` is
written to stderr, and the function returns — the remaining messages are
never processed.  A `None` result skips the enqueue (`continue`);
otherwise the wrapper is enqueued on `TxQueue`. -/
def cmdWorkerInjected (CMDParser : khanda_message → Except Unit (Option khanda_TxWrapper)) :
    List khanda_message → List khanda_TxWrapper →
    List khanda_TxWrapper × List String
  | [], tx => (tx, [])
  | m :: rest, tx =>
    match CMDParser m with
    | .error _ => (tx, ["Invalid Command Parser!"])
    | .ok none => cmdWorkerInjected CMDParser rest tx
    | .ok (some w) => cmdWorkerInjected CMDParser rest (tx ++ [w])

/-!
## Egress (TxWorker)
-/

/-- A UDP send attempt: (data, destination address, destination port). -/
abbrev Send := String × String × Nat

/-- khandaServer.py lines 315-326: one iteration of `TxWorker`'s `while`
loop.  `ws` is the Python local `writeable_socket`: it is assigned only by
the `for writeable_socket in write` loop inside the body (line 320), so on
entry to the first iteration it is unbound (`none`).  The loop condition
`self.TxQueue.empty() is False and len(writeable_socket)` short-circuits
when the queue is empty (`continue`); when the queue is nonempty it
evaluates `len(writeable_socket)` and raises NameError if the local is
unbound.  Inside the body, the serial write uses `TxPacket.data` with a
capital P (line 323) — `TxPacket` is bound nowhere, so with any open
serial port that line raises NameError too.  Errors are uncaught: the
worker thread dies. -/
def txWorkerIterate (st : KhandaState) (ws : Option Nat) :
    Except PyErr (KhandaState × List Send) :=
  if st.TxQueue.isEmpty then .ok (st, [])
  else
    match ws with
    | none => .error .nameError
    | some _ =>
      match st.TxQueue with
      | [] => .ok (st, [])
      | pkt :: rest =>
        let sends : List Send := [(pkt.data, pkt.recipient, st.port)]
        if st.serialPorts.isEmpty then .ok ({ st with TxQueue := rest }, sends)
        else .error .nameError

/-!
## QueueCommand and stopWorkers
-/

/-- khandaServer.py lines 234-238, the body of `QueueCommand`'s `try`
block: build `newCommand`, then evaluate
`json.dumps(khanda_Resp, cls=JSONEncoder)`.  The name `khanda_Resp` is not
bound in this scope — it is only ever a local of `CMDWorker`, and neither
this module nor any of the star-imported modules defines it — so
evaluating it raises NameError before `TxQueue.put` is reached. -/
def QueueCommandBody (_st : KhandaState) (CMD : String) :
    Except PyErr (Int × KhandaState) :=
  let newCommand : khanda_message := ⟨"CMD", CMD, "224.1.1.1", "1"⟩
  let _ := newCommand
  .error .nameError

/-- khandaServer.py lines 224-241: `QueueCommand` returns 0 if the body
succeeds, and on any exception writes `"Unable to Process Command"` to
stderr and returns -1. -/
def QueueCommand (st : KhandaState) (CMD : String) : Int × KhandaState :=
  match QueueCommandBody st CMD with
  | .ok r => r
  | .error _ =>
    (-1, { st with stderrLog := st.stderrLog ++ ["Unable to Process Command"] })

/-- khandaServer.py lines 191-211: `stopWorkers`.  The first `try` block
calls `worker.stop()` for each thread, then `port.close()` for each serial
port.  `threading.Thread` has no `stop` method, so with at least one
started thread the first call raises AttributeError, the except writes
`"Unable to stop working threads!"`, and the port-closing loop is skipped.
The second `try` calls `self.logfile.close()`; the attribute `logfile` is
never assigned anywhere in the class, so this raises AttributeError and
the except writes `"Unable to close logfile!"`.  The UDP socket is not
touched at all. -/
def stopWorkers (st : KhandaState) : KhandaState :=
  let st1 :=
    if st.threads = 0 then
      { st with serialPorts := st.serialPorts.map (fun _ => false) }
    else
      { st with stderrLog := st.stderrLog ++ ["Unable to stop working threads!"] }
  if st1.logfileAttr then st1
  else { st1 with stderrLog := st1.stderrLog ++ ["Unable to close logfile!"] }

/-!
## Auxiliary definitions for the claims
-/

/-- Printable ASCII, the character set quantified over by the round-trip
property. -/
def printableChar (c : Char) : Prop := 0x20 ≤ c.toNat ∧ c.toNat ≤ 0x7e

instance (c : Char) : Decidable (printableChar c) := by
  unfold printableChar; infer_instance

/-- A string of printable ASCII characters. -/
def printableStr (s : String) : Prop := ∀ c ∈ s.data, printableChar c

instance (s : String) : Decidable (printableStr s) :=
  List.decidableBAll _ s.data

/-- The string contains none of the control characters stripped by the
ingress workers (tab, CR, LF, NUL). -/
def noStrippedCtl (s : String) : Prop :=
  ∀ c ∈ s.data, ¬(c = '\t' ∨ c = '\r' ∨ c = '\n' ∨ c = Char.ofNat 0)

instance (s : String) : Decidable (noStrippedCtl s) :=
  List.decidableBAll _ s.data

/-- A concrete injected dispatch function used to exercise the
injected-parser worker: it fails on payload "BOOM" and otherwise answers
with a wrapper addressed back to the sender. -/
def failingParser (m : khanda_message) : Except Unit (Option khanda_TxWrapper) :=
  if m.payload = "BOOM" then .error () else .ok (some ⟨m.recipient, m.payload⟩)

/-!
## Helper lemmas for the JSON round-trip
-/

theorem parseJ_quote (rest : List Char) : parseJStringBody ('"' :: rest) = some ([], rest) := by
  rw [parseJStringBody.eq_def]
  dsimp only
  rw [if_pos rfl]

theorem parseJ_esc_quote (rest : List Char) :
    parseJStringBody ('\\' :: '"' :: rest)
      = (parseJStringBody rest).map (fun p => ('"' :: p.1, p.2)) := by
  rw [parseJStringBody.eq_def]
  dsimp only
  rw [if_neg (by decide), if_pos rfl, if_neg (by decide)]
  rfl

theorem parseJ_esc_back (rest : List Char) :
    parseJStringBody ('\\' :: '\\' :: rest)
      = (parseJStringBody rest).map (fun p => ('\\' :: p.1, p.2)) := by
  rw [parseJStringBody.eq_def]
  dsimp only
  rw [if_neg (by decide), if_pos rfl, if_neg (by decide)]
  rfl

theorem parseJ_plain {c : Char} (hq : c ≠ '"') (hb : c ≠ '\\') (rest : List Char) :
    parseJStringBody (c :: rest)
      = (parseJStringBody rest).map (fun p => (c :: p.1, p.2)) := by
  rw [parseJStringBody.eq_def]
  dsimp only
  rw [if_neg hq, if_neg hb]

theorem escChar_plain {c : Char} (h : printableChar c) (hq : c ≠ '"') (hb : c ≠ '\\') :
    escChar c = [c] := by
  have h' : (32 : Nat) ≤ c.toNat ∧ c.toNat ≤ 126 := h
  unfold escChar
  rw [if_neg hq, if_neg hb, if_pos h']

theorem parse_escList {cs : List Char} (h : ∀ c ∈ cs, printableChar c) (tail : List Char) :
    parseJStringBody (escList cs ++ '"' :: tail) = some (cs, tail) := by
  induction cs with
  | nil => simpa [escList] using parseJ_quote tail
  | cons c cs ih =>
    have hc : printableChar c := h c (List.mem_cons_self _ _)
    have hrest : ∀ x ∈ cs, printableChar x := fun x hx => h x (List.mem_cons_of_mem _ hx)
    simp only [escList, List.flatMap_cons] at ih ⊢
    by_cases hq : c = '"'
    · subst hq
      have : escChar '"' = ['\\', '"'] := rfl
      rw [this]
      simp only [List.cons_append, List.append_assoc, List.nil_append]
      rw [parseJ_esc_quote, ih hrest]
      rfl
    · by_cases hb : c = '\\'
      · subst hb
        have : escChar '\\' = ['\\', '\\'] := rfl
        rw [this]
        simp only [List.cons_append, List.append_assoc, List.nil_append]
        rw [parseJ_esc_back, ih hrest]
        rfl
      · rw [escChar_plain hc hq hb]
        simp only [List.cons_append, List.singleton_append, List.nil_append]
        rw [parseJ_plain hq hb, ih hrest]
        rfl

theorem skipWs_nonws {c : Char} (h : ¬(c = ' ' ∨ c = '\t' ∨ c = '\n' ∨ c = '\r'))
    (l : List Char) : skipWs (c :: l) = c :: l := by
  rw [skipWs.eq_def]
  dsimp only
  rw [if_neg h]

theorem mk_data (s : String) : String.mk s.data = s := rfl

theorem skipWs_space (l : List Char) : skipWs (' ' :: l) = skipWs l := by
  rw [skipWs.eq_def]
  dsimp only
  rw [if_pos (by decide)]

theorem parsePairsAux_last (f : Nat) (kv : String × String)
    (hk : printableStr kv.1) (hv : printableStr kv.2) (tail : List Char) :
    parsePairsAux (f + 1) (dumpPair kv ++ '}' :: tail) = some ([kv], tail) := by
  simp only [dumpPair, jsonQuote, List.append_assoc, List.cons_append,
    List.singleton_append, List.nil_append]
  rw [parsePairsAux.eq_def]
  dsimp only
  rw [if_pos rfl, parse_escList hk]
  dsimp only
  rw [skipWs_nonws (by decide)]
  dsimp only
  rw [if_pos rfl, skipWs_space, skipWs_nonws (by decide)]
  dsimp only
  rw [if_pos rfl, parse_escList hv]
  dsimp only
  rw [skipWs_nonws (by decide)]
  dsimp only
  rw [if_pos rfl, mk_data, mk_data]

theorem parsePairsAux_more (f : Nat) (kv : String × String)
    (hk : printableStr kv.1) (hv : printableStr kv.2) (Y : List Char) :
    parsePairsAux (f + 1) (dumpPair kv ++ ',' :: ' ' :: Y) =
      match parsePairsAux f (skipWs Y) with
      | some (ps, rem) => some (kv :: ps, rem)
      | none => none := by
  simp only [dumpPair, jsonQuote, List.append_assoc, List.cons_append,
    List.singleton_append, List.nil_append]
  rw [parsePairsAux.eq_def]
  dsimp only
  rw [if_pos rfl, parse_escList hk]
  dsimp only
  rw [skipWs_nonws (by decide)]
  dsimp only
  rw [if_pos rfl, skipWs_space, skipWs_nonws (by decide)]
  dsimp only
  rw [if_pos rfl, parse_escList hv]
  dsimp only
  rw [skipWs_nonws (by decide)]
  dsimp only
  rw [if_neg (by decide), if_pos rfl, skipWs_space, mk_data, mk_data]

theorem dumpPairsBody_cons_head (kv : String × String) (rest : List (String × String)) :
    ∃ L, dumpPairsBody (kv :: rest) = '"' :: L := by
  cases rest with
  | nil => exact ⟨_, rfl⟩
  | cons kv2 rest2 => exact ⟨_, rfl⟩

theorem parsePairsAux_dump (pairs : List (String × String)) :
    ∀ f : Nat, pairs ≠ [] →
    (∀ kv ∈ pairs, printableStr kv.1 ∧ printableStr kv.2) →
    pairs.length ≤ f →
    ∀ tail : List Char,
      parsePairsAux f (dumpPairsBody pairs ++ '}' :: tail) = some (pairs, tail) := by
  induction pairs with
  | nil => intro f hne; exact absurd rfl hne
  | cons kv rest ih =>
    intro f _ hp hf tail
    obtain ⟨f', rfl⟩ : ∃ f', f = f' + 1 := by
      refine ⟨f - 1, ?_⟩
      have : 1 ≤ f := le_trans (by simp) hf
      omega
    obtain ⟨hk, hv⟩ := hp kv (List.mem_cons_self _ _)
    cases rest with
    | nil =>
      show parsePairsAux (f' + 1) (dumpPair kv ++ '}' :: tail) = some ([kv], tail)
      exact parsePairsAux_last f' kv hk hv tail
    | cons kv2 rest2 =>
      have hbody : dumpPairsBody (kv :: kv2 :: rest2)
          = dumpPair kv ++ ',' :: ' ' :: dumpPairsBody (kv2 :: rest2) := rfl
      rw [hbody]
      simp only [List.append_assoc, List.cons_append]
      rw [parsePairsAux_more f' kv hk hv]
      obtain ⟨L, hL⟩ := dumpPairsBody_cons_head kv2 rest2
      have hsw : skipWs (dumpPairsBody (kv2 :: rest2) ++ '}' :: tail)
          = dumpPairsBody (kv2 :: rest2) ++ '}' :: tail := by
        rw [hL]
        exact skipWs_nonws (by decide) _
      rw [hsw, ih f' (by simp) (fun x hx => hp x (List.mem_cons_of_mem _ hx))
        (by simp at hf ⊢; omega)]

theorem skipWs_nil : skipWs [] = [] := by rw [skipWs.eq_def]

theorem dumpPairsBody_length (pairs : List (String × String)) :
    pairs.length ≤ (dumpPairsBody pairs).length := by
  induction pairs with
  | nil => simp [dumpPairsBody]
  | cons kv rest ih =>
    cases rest with
    | nil => simp [dumpPairsBody, dumpPair, jsonQuote]
    | cons kv2 rest2 =>
      have hb : dumpPairsBody (kv :: kv2 :: rest2)
          = dumpPair kv ++ ',' :: ' ' :: dumpPairsBody (kv2 :: rest2) := rfl
      rw [hb]
      simp only [List.length_cons, List.length_append] at ih ⊢
      omega

theorem jsonLoads_dumps (pairs : List (String × String)) (hne : pairs ≠ [])
    (hp : ∀ kv ∈ pairs, printableStr kv.1 ∧ printableStr kv.2) :
    jsonLoadsFlat (jsonDumpsFlat pairs) = some pairs := by
  obtain ⟨kv, rest, rfl⟩ : ∃ kv rest, pairs = kv :: rest := by
    cases pairs with
    | nil => exact absurd rfl hne
    | cons a b => exact ⟨a, b, rfl⟩
  obtain ⟨L, hL⟩ := dumpPairsBody_cons_head kv rest
  have hlen : (kv :: rest).length ≤ L.length + 1 := by
    have h1 := dumpPairsBody_length (kv :: rest)
    rw [hL] at h1
    simpa using h1
  unfold jsonLoadsFlat jsonDumpsFlat
  rw [skipWs_nonws (by decide)]
  dsimp only
  rw [if_pos rfl, hL]
  simp only [List.cons_append]
  rw [skipWs_nonws (by decide)]
  dsimp only
  rw [if_neg (by decide)]
  have hfold : '"' :: (L ++ ['}']) = dumpPairsBody (kv :: rest) ++ '}' :: ([] : List Char) := by
    rw [hL]; simp
  rw [hfold]
  rw [parsePairsAux_dump (kv :: rest) _ (by simp) hp
    (by simp only [List.length_append, List.length_cons, List.length_nil] at hlen ⊢; omega) []]
  dsimp only
  rw [skipWs_nil, if_pos rfl]

theorem KhandaMSGDecoder_msgToJson (m : khanda_message) :
    KhandaMSGDecoder (msgToJson m) = some m := by
  simp [KhandaMSGDecoder, msgToJson, dictGet]

/-!
## Claim theorems
-/

/-- Claim C1 (code bug): the spec requires upsert semantics for repeated
DEVICE registration of the same address.  The code neither upserts nor
appends: the DEVICE branch reads `RxPacket.data`, an attribute
`khanda_message` does not have, so the first DEVICE message raises
AttributeError, the worker thread dies, and after two DEVICE registrations
of address 10.0.0.5 the registry holds no entry at all (and the second
message is never processed). -/
theorem device_reregistration_crashes_registry_unchanged :
    (cmdWorkerRun "1" (khandaInit none none) none
      [⟨"DEVICE", "SENSOR+10.0.0.5", "224.1.1.1", "1"⟩,
       ⟨"DEVICE", "ACTUATOR+10.0.0.5", "224.1.1.1", "2"⟩])
      = (khandaInit none none, some PyErr.attributeError) := by
  rfl

/-- Claim C2 (code bug): dispatching any DEVICE message raises
AttributeError at `RxPacket.data.split("+")` (khandaServer.py line 367),
because `khanda_message` has no attribute `data` — so no registry entry is
added and no ACKDEV/SUCCESS envelope is enqueued, contrary to the claim. -/
theorem device_dispatch_raises_attributeError (now : String) (st : KhandaState)
    (respLocal : Option khanda_TxWrapper) (m : khanda_message)
    (ht : m.type = "DEVICE") :
    dispatchStep now st respLocal m = .error .attributeError := by
  simp [dispatchStep, pyGetAttr, ht]

/-- Witness for C2 at the spec's own end-to-end input
`{"type":"DEVICE","payload":"SENSOR+10.0.0.5",...}`. -/
theorem device_dispatch_raises_attributeError_witness :
    dispatchStep "1" (khandaInit none none) none
      ⟨"DEVICE", "SENSOR+10.0.0.5", "224.1.1.1", "1"⟩ = .error .attributeError :=
  device_dispatch_raises_attributeError "1" (khandaInit none none) none _ rfl

/-- Claim C3, counterexample: construct the server with multicast group
239.0.0.1 (so `host = "239.0.0.1"`), and feed either ingress path a
well-formed message whose recipient is exactly that host.  The message
decodes successfully and is addressed to the router's configured group,
yet it is discarded on both the UDP and the serial path, because the
filter compares against the literal "224.1.1.1", not `self.host`. -/
theorem recipient_filter_ignores_configured_host :
    decodeKhanda (stripCtl (encodeKhanda ⟨"EVENT", "x", "239.0.0.1", "1"⟩))
      = some ⟨"EVENT", "x", "239.0.0.1", "1"⟩
  ∧ (khandaInit (some "239.0.0.1") none).host = "239.0.0.1"
  ∧ (rxWorkerProcessFrame (khandaInit (some "239.0.0.1") none)
      (encodeKhanda ⟨"EVENT", "x", "239.0.0.1", "1"⟩)).RxQueue = []
  ∧ (serialProcessFrame (khandaInit (some "239.0.0.1") none)
      (encodeKhanda ⟨"EVENT", "x", "239.0.0.1", "1"⟩)).RxQueue = [] := by
  refine ⟨rfl, rfl, rfl, rfl⟩

/-- Claim C3, amended: on both ingress paths, a successfully decoded
message is enqueued on the Inbound Queue iff its recipient equals the
string literal "224.1.1.1" (the default multicast group), irrespective of
the host the server was constructed with. -/
theorem recipient_filter_is_literal_default_group (st : KhandaState)
    (rawU rawS : String) (pktU pktS : khanda_message)
    (hU : decodeKhanda (stripCtl rawU) = some pktU)
    (hS : decodeKhanda (serialNormalize rawS) = some pktS) :
    (rxWorkerProcessFrame st rawU).RxQueue
        = (if pktU.recipient = "224.1.1.1" then st.RxQueue ++ [pktU] else st.RxQueue)
  ∧ (serialProcessFrame st rawS).RxQueue
        = (if pktS.recipient = "224.1.1.1" then st.RxQueue ++ [pktS] else st.RxQueue) := by
  constructor
  · unfold rxWorkerProcessFrame
    rw [hU]
    by_cases h : pktU.recipient = "224.1.1.1" <;> simp [h]
  · unfold serialProcessFrame
    rw [hS]
    by_cases h : pktS.recipient = "224.1.1.1" <;> simp [h]

/-- Witness for the amended C3 on a concrete frame addressed to the
default group. -/
theorem recipient_filter_is_literal_default_group_witness :
    (rxWorkerProcessFrame (khandaInit none none)
        (encodeKhanda ⟨"EVENT", "x", "224.1.1.1", "1"⟩)).RxQueue
        = (if (khanda_message.mk "EVENT" "x" "224.1.1.1" "1").recipient = "224.1.1.1"
           then (khandaInit none none).RxQueue ++ [⟨"EVENT", "x", "224.1.1.1", "1"⟩]
           else (khandaInit none none).RxQueue)
  ∧ (serialProcessFrame (khandaInit none none)
        (encodeKhanda ⟨"EVENT", "x", "224.1.1.1", "1"⟩)).RxQueue
        = (if (khanda_message.mk "EVENT" "x" "224.1.1.1" "1").recipient = "224.1.1.1"
           then (khandaInit none none).RxQueue ++ [⟨"EVENT", "x", "224.1.1.1", "1"⟩]
           else (khandaInit none none).RxQueue) :=
  recipient_filter_is_literal_default_group (khandaInit none none) _ _ _ _ rfl rfl

/-- Claim C4 (code bug): the `try` of the injected-parser worker is
outside its `while` loop, so the first parser failure writes
"Invalid Command Parser!" and returns from the worker.  With a parser that
fails on payload "BOOM" and succeeds otherwise: after the failing message,
the following well-formed message is NOT processed (no wrapper enqueued),
whereas the same message alone IS processed. -/
theorem injected_dispatch_failure_terminates_worker :
    cmdWorkerInjected failingParser
      [⟨"CMD", "BOOM", "224.1.1.1", "1"⟩, ⟨"CMD", "OK", "224.1.1.1", "2"⟩] []
      = ([], ["Invalid Command Parser!"])
  ∧ cmdWorkerInjected failingParser [⟨"CMD", "OK", "224.1.1.1", "2"⟩] []
      = ([⟨"224.1.1.1", "OK"⟩], []) := by
  constructor <;> rfl

/-- Claim C5 (code bug): a transport-level read failure on one serial port
hits `except: return` (khandaServer.py lines 273-274): the whole
SerialRxWorker returns — nothing is logged, no port is marked degraded,
and the valid frame waiting on the next port is never ingested, although
the same frame alone would be enqueued. -/
theorem serial_read_failure_terminates_worker :
    serialRxPass (khandaInit none none)
      [.failure, .frame (encodeKhanda ⟨"EVENT", "x", "224.1.1.1", "1"⟩)]
      = (khandaInit none none, true)
  ∧ (serialRxPass (khandaInit none none)
      [.frame (encodeKhanda ⟨"EVENT", "x", "224.1.1.1", "1"⟩)]).1.RxQueue
      = [⟨"EVENT", "x", "224.1.1.1", "1"⟩] := by
  constructor <;> rfl

/-- Claim C6 (code bug): with any envelope on the Outbound Queue, the
first iteration of TxWorker evaluates `len(writeable_socket)` with the
local `writeable_socket` still unbound and raises NameError — nothing is
ever sent to either sink and the uncaught error kills the worker loop.
With an empty queue the iteration just spins (`continue`), sending
nothing. -/
theorem txWorker_nameError_sends_nothing :
    txWorkerIterate { khandaInit none none with
        TxQueue := [⟨"10.0.0.5", "payload"⟩] } none = .error .nameError
  ∧ txWorkerIterate (khandaInit none none) none = .ok (khandaInit none none, []) := by
  constructor <;> rfl

/-- Claim C7 (code bug): on a router with started worker threads and an
open serial port, `stopWorkers` raises AttributeError on `worker.stop()`
(threading.Thread has no such method), skipping the port-closing loop, and
never touches the UDP socket; `self.logfile` was never assigned, so
closing the log also fails.  Transport handles remain open, contrary to
the claim. -/
theorem stopWorkers_leaves_transports_open :
    (stopWorkers { khandaInit none none with
        threads := 4, serialPorts := [true] }).serialPorts = [true]
  ∧ (stopWorkers { khandaInit none none with
        threads := 4, serialPorts := [true] }).sockOpen = true
  ∧ (stopWorkers { khandaInit none none with
        threads := 4, serialPorts := [true] }).stderrLog
      = ["Unable to stop working threads!", "Unable to close logfile!"] := by
  refine ⟨rfl, rfl, rfl⟩

/-- Claim C8: dispatching an inbound LED/"RED" message enqueues exactly
one envelope, addressed to the fixed control-plane address 10.0.0.120,
whose data is the serialization of the message (CMD, "LED+RED",
"224.1.1.1", now), and appends exactly one log record
`LED,RED,<timestamp>` built from the inbound message's timestamp. -/
theorem led_red_dispatch_envelope_and_log (now : String) (st : KhandaState)
    (respLocal : Option khanda_TxWrapper) (m : khanda_message)
    (ht : m.type = "LED") (hp : m.payload = "RED") :
    dispatchStep now st respLocal m =
      .ok ({ st with
               TxQueue := st.TxQueue ++
                 [⟨"10.0.0.120", encodeKhanda ⟨"CMD", "LED+RED", "224.1.1.1", now⟩⟩],
               logfile := st.logfile ++ ["LED,RED," ++ m.timestamp ++ "\r\n"] },
            some ⟨"10.0.0.120", encodeKhanda ⟨"CMD", "LED+RED", "224.1.1.1", now⟩⟩) := by
  simp [dispatchStep, logRecord, ht, hp]

/-- Witness for C8 on a concrete LED/RED message. -/
theorem led_red_dispatch_envelope_and_log_witness :
    dispatchStep "1" (khandaInit none none) none ⟨"LED", "RED", "224.1.1.1", "7"⟩ =
      .ok ({ khandaInit none none with
               TxQueue := (khandaInit none none).TxQueue ++
                 [⟨"10.0.0.120", encodeKhanda ⟨"CMD", "LED+RED", "224.1.1.1", "1"⟩⟩],
               logfile := (khandaInit none none).logfile ++ ["LED,RED," ++ "7" ++ "\r\n"] },
            some ⟨"10.0.0.120", encodeKhanda ⟨"CMD", "LED+RED", "224.1.1.1", "1"⟩⟩) :=
  led_red_dispatch_envelope_and_log "1" (khandaInit none none) none _ rfl rfl

/-- Claim C9: encoding a message with the JSON encoder and decoding the
result with KhandaMSGDecoder reproduces all four fields exactly, for
fields of printable ASCII containing none of the stripped control
characters. -/
theorem message_json_roundtrip (m : khanda_message)
    (hty : printableStr m.type) (hpl : printableStr m.payload)
    (hrc : printableStr m.recipient) (hts : printableStr m.timestamp)
    (_hcty : noStrippedCtl m.type) (_hcpl : noStrippedCtl m.payload)
    (_hcrc : noStrippedCtl m.recipient) (_hcts : noStrippedCtl m.timestamp) :
    decodeKhanda (encodeKhanda m) = some m := by
  unfold decodeKhanda encodeKhanda
  rw [jsonLoads_dumps (msgToJson m) (by simp [msgToJson]) ?_]
  · rw [Option.some_bind, KhandaMSGDecoder_msgToJson]
  · intro kv hkv
    simp only [msgToJson, List.mem_cons, List.not_mem_nil, or_false] at hkv
    rcases hkv with h | h | h | h <;> subst h
    · exact ⟨(by decide : printableStr "type"), hty⟩
    · exact ⟨(by decide : printableStr "payload"), hpl⟩
    · exact ⟨(by decide : printableStr "recipient"), hrc⟩
    · exact ⟨(by decide : printableStr "timestamp"), hts⟩

/-- Witness for C9 on a concrete DEVICE registration message. -/
theorem message_json_roundtrip_witness :
    decodeKhanda (encodeKhanda ⟨"DEVICE", "SENSOR+10.0.0.5", "224.1.1.1", "1"⟩)
      = some ⟨"DEVICE", "SENSOR+10.0.0.5", "224.1.1.1", "1"⟩ :=
  message_json_roundtrip ⟨"DEVICE", "SENSOR+10.0.0.5", "224.1.1.1", "1"⟩
    (by decide) (by decide) (by decide) (by decide)
    (by decide) (by decide) (by decide) (by decide)

/-- Claim C10: `QueueCommand` always returns -1 and leaves the Outbound
Queue unchanged, because `json.dumps(khanda_Resp, ...)` references the
never-bound name `khanda_Resp`, raising NameError before `TxQueue.put`
is reached; the success path returning 0 is unreachable. -/
theorem queueCommand_always_fails_tx_unchanged (st : KhandaState) (CMD : String) :
    (QueueCommand st CMD).1 = -1 ∧ (QueueCommand st CMD).2.TxQueue = st.TxQueue := by
  constructor <;> rfl

end Khanda
